import Mathlib

/-!
Verification of the NovaRetail dashboard script (`app.py`).

The script is a linear pandas/streamlit pipeline: normalize headers, match
them against a fixed logical schema, coerce column types, drop rows with a
null `purchaseamount`, apply six categorical include-list filters, compute
KPIs, grouped revenue sums, two month-bucketed revenue series, and a block
of templated insight sentences.

The embedding below models a typed table as a `List Row` of already-coerced
cells (the external parsers `pd.read_excel`, `pd.to_datetime(errors="coerce")`
and `pd.to_numeric(errors="coerce")` deliver typed optional values; an
unparseable cell is `none`).  Dates are represented by their (year, month)
pair, which is all the pipeline ever uses of them (`dt.to_period("M")`).
Python string methods used by the script are modelled character-wise.
A second, raw representation (`PyTable`) models column access by name, where
a missing column is a `KeyError`.
-/

/-- Python `str.strip()`: remove leading and trailing whitespace. -/
def pyStrip (s : String) : String :=
  String.mk (((s.data.dropWhile Char.isWhitespace).reverse.dropWhile Char.isWhitespace).reverse)

/-- Python `str.lower()`: lowercase every character. -/
def pyLower (s : String) : String :=
  String.mk (s.data.map Char.toLower)

/-- Python `str.replace(" ", "_")`: replace each space with an underscore. -/
def spaceToUscore (s : String) : String :=
  String.mk (s.data.map (fun c => if c = ' ' then '_' else c))

/-- Python `col.replace("_", "")`: remove every underscore. -/
def stripUnderscores (s : String) : String :=
  String.mk (s.data.filter (fun c => c != '_'))

/-- Header normalization of `normalize_columns` (app.py lines 18-25), applied
to one header: strip surrounding whitespace, lowercase, replace spaces with
underscores. -/
def normalizeHeader (s : String) : String :=
  spaceToUscore (pyLower (pyStrip s))

/-- Full canonical form of a raw header: normalization followed by the
underscore-stripping comparison used by the matcher. -/
def canonHeader (s : String) : String :=
  stripUnderscores (normalizeHeader s)

/-- Keys of the `logical_fields` dict of `match_required_fields`
(app.py lines 28-41), in insertion order.  Note that this revision of the
script still requires `idx`. -/
def logicalFields : List String :=
  ["idx", "label", "customerid", "transactionid", "transactiondate",
   "productcategory", "purchaseamount", "customeragegroup", "customergender",
   "customerregion", "customersatisfaction", "retailchannel"]

/-- Inner loop of `match_required_fields` (app.py lines 47-51): the first
column whose underscore-stripped form equals the logical key. -/
def matchField (cols : List String) (key : String) : Option String :=
  cols.find? (fun c => stripUnderscores c == key)

/-- Model of `match_required_fields` (app.py lines 27-57): the matched
(field, header) pairs and the list of missing logical fields. -/
def match_required_fields (cols : List String) : List (String × String) × List String :=
  (logicalFields.filterMap (fun k => (matchField cols k).map (fun c => (k, c))),
   logicalFields.filter (fun k => (matchField cols k).isNone))

/-- One row of the typed table, after renaming to logical names and type
coercion (app.py lines 79-96).  `none` is a null cell (NaN/NaT). -/
structure Row where
  label : Option String
  customerid : Option String
  transactionid : Option String
  transactiondate : Option (Nat × Nat)
  productcategory : Option String
  purchaseamount : Option ℚ
  customeragegroup : Option String
  customergender : Option String
  customerregion : Option String
  customersatisfaction : Option ℚ
  retailchannel : Option String
deriving DecidableEq

/-- Row drop `df = df.dropna(subset=["purchaseamount"])` (app.py line 98). -/
def dropnaPurchaseamount (rows : List Row) : List Row :=
  rows.filter (fun r => r.purchaseamount.isSome)

/-- Contribution of one row to a revenue sum; pandas `sum()` skips nulls. -/
def amtOf (r : Row) : ℚ := r.purchaseamount.getD 0

/-- Sum of `purchaseamount` over a list of rows (nulls count as 0, as in
pandas `Series.sum()`). -/
def sumAmt (rows : List Row) : ℚ := (rows.map amtOf).sum

/-- Python `str(x)` as applied by `.astype(str)` to an optional string cell:
a null cell renders as the literal string `"nan"`. -/
def pyStr : Option String → String
  | none => "nan"
  | some s => s

/-- Model of `apply_filter` (app.py lines 123-126): a selection containing
`"All"` returns the data unchanged, otherwise keep rows whose string-cast
field value is in the selection. -/
def apply_filter (data : List Row) (field : Row → Option String) (selection : List String) :
    List Row :=
  if "All" ∈ selection then data
  else data.filter (fun r => decide (pyStr (field r) ∈ selection))

/-- Values of the six sidebar multiselect widgets (app.py lines 111-116). -/
structure Selections where
  segment : List String
  region : List String
  category : List String
  channel : List String
  age : List String
  gender : List String

/-- Chain of six `apply_filter` calls building `filtered_df`
(app.py lines 121-133). -/
def filtered_df (df : List Row) (s : Selections) : List Row :=
  apply_filter
    (apply_filter
      (apply_filter
        (apply_filter
          (apply_filter
            (apply_filter df (fun r => r.label) s.segment)
            (fun r => r.customerregion) s.region)
          (fun r => r.productcategory) s.category)
        (fun r => r.retailchannel) s.channel)
      (fun r => r.customeragegroup) s.age)
    (fun r => r.customergender) s.gender

/-- Ordering of aggregate rows by their (string) group key, as produced by
`sort_values` on the key column. -/
def keyLE (a b : String × ℚ) : Prop := a.1 ≤ b.1

instance : DecidableRel keyLE := fun a b => inferInstanceAs (Decidable (a.1 ≤ b.1))

instance : IsTotal (String × ℚ) keyLE := ⟨fun a b => le_total a.1 b.1⟩

instance : IsTrans (String × ℚ) keyLE := ⟨fun _ _ _ h1 h2 => le_trans h1 h2⟩

/-- Rows of one group: those whose key value equals `k`
(`groupby` with `dropna=True`; a null key belongs to no group). -/
def keyRows (key : Row → Option String) (rows : List Row) (k : String) : List Row :=
  rows.filter (fun r => decide (key r = some k))

/-- Distinct non-null key values occurring in `rows`. -/
def groupKeys (key : Row → Option String) (rows : List Row) : List String :=
  (rows.filterMap key).dedup

/-- Model of `groupby(key)["purchaseamount"].sum().reset_index().sort_values(key)`:
one (key, summed revenue) pair per distinct non-null key, sorted ascending
by key. -/
def groupSumBy (key : Row → Option String) (rows : List Row) : List (String × ℚ) :=
  List.insertionSort keyLE
    ((groupKeys key rows).map (fun k => (k, sumAmt (keyRows key rows k))))

/-- Aggregate `rev_by_segment` (app.py lines 157-162). -/
def rev_by_segment (rows : List Row) : List (String × ℚ) :=
  groupSumBy (fun r => r.label) rows

/-- Aggregate `rev_by_region` (app.py lines 164-169). -/
def rev_by_region (rows : List Row) : List (String × ℚ) :=
  groupSumBy (fun r => r.customerregion) rows

/-- Aggregate `rev_by_channel` (app.py lines 171-176). -/
def rev_by_channel (rows : List Row) : List (String × ℚ) :=
  groupSumBy (fun r => r.retailchannel) rows

/-- Aggregate `rev_by_category` (app.py lines 178-183). -/
def rev_by_category (rows : List Row) : List (String × ℚ) :=
  groupSumBy (fun r => r.productcategory) rows

/-- Character for a decimal digit. -/
def digitChar (n : Nat) : Char := Char.ofNat (48 + n)

/-- Fuelled digit expansion of a natural number. -/
def natDigitsAux : Nat → Nat → List Char
  | 0, _ => []
  | fuel + 1, n =>
      if n < 10 then [digitChar n] else natDigitsAux fuel (n / 10) ++ [digitChar (n % 10)]

/-- Decimal digits of a natural number. -/
def natDigits (n : Nat) : List Char := natDigitsAux (n + 1) n

/-- Left-pad a digit list with zeros to width `w`. -/
def zfill (w : Nat) (cs : List Char) : List Char :=
  List.replicate (w - cs.length) '0' ++ cs

/-- Rendering of `transactiondate.dt.to_period("M").astype(str)`
(app.py line 185): a parsed date renders as `"YYYY-MM"`, while a null date
(`NaT`) renders as the literal string `"NaT"` — the row is NOT dropped. -/
def ymStr : Option (Nat × Nat) → String
  | none => "NaT"
  | some p => String.mk (zfill 4 (natDigits p.1) ++ '-' :: zfill 2 (natDigits p.2))

/-- Value of the `year_month` column of a row: always a non-null string. -/
def ymKey (r : Row) : Option String := some (ymStr r.transactiondate)

/-- Series `monthly_trend` (app.py lines 187-192): group the filtered view by
its `year_month` string and sum revenue, sorted ascending by the string. -/
def monthly_trend (rows : List Row) : List (String × ℚ) :=
  groupSumBy ymKey rows

/-- Row predicate of `decline_df` (app.py line 194):
`label.str.lower() == "decline"`.  A null label compares unequal; note that
no whitespace stripping is applied. -/
def isDecline (r : Row) : Bool :=
  match r.label with
  | none => false
  | some s => pyLower s == "decline"

/-- Selection `decline_df = filtered_df[filtered_df["label"].str.lower() == "decline"]`
(app.py line 194). -/
def decline_df (rows : List Row) : List Row :=
  rows.filter isDecline

/-- Series `decline_trend` (app.py lines 196-201). -/
def decline_trend (rows : List Row) : List (String × ℚ) :=
  groupSumBy ymKey (decline_df rows)

/-- KPI `total_revenue = filtered_df["purchaseamount"].sum()` (app.py line 142). -/
def total_revenue (rows : List Row) : ℚ := sumAmt rows

/-- KPI `avg_purchase` (app.py line 143). -/
def avg_purchase (rows : List Row) : ℚ :=
  if rows.length > 0 then sumAmt rows / rows.length else 0

/-- KPI `total_transactions = filtered_df["transactionid"].nunique()`
(app.py line 144): count of distinct non-null transaction ids. -/
def total_transactions (rows : List Row) : Nat :=
  ((rows.filterMap (fun r => r.transactionid)).dedup).length

/-- KPI `avg_satisfaction` (app.py line 145): mean over non-null values,
`none` (NaN) when every value is null. -/
def avg_satisfaction (rows : List Row) : Option ℚ :=
  let vs := rows.filterMap (fun r => r.customersatisfaction)
  if vs.isEmpty then none else some (vs.sum / vs.length)

/-- Descending `sort_values("purchaseamount", ascending=False)` order. -/
def revDesc (a b : String × ℚ) : Prop := b.2 ≤ a.2

/-- Ascending `sort_values("purchaseamount")` order. -/
def revAsc (a b : String × ℚ) : Prop := a.2 ≤ b.2

instance : DecidableRel revDesc := fun a b => inferInstanceAs (Decidable (b.2 ≤ a.2))

instance : DecidableRel revAsc := fun a b => inferInstanceAs (Decidable (a.2 ≤ b.2))

/-- Fact `top_segment` (app.py lines 250-254): first row of the
revenue-descending sort of `rev_by_segment`, `None` when the aggregate is
empty. -/
def top_segment (rows : List Row) : Option (String × ℚ) :=
  (List.insertionSort revDesc (rev_by_segment rows)).head?

/-- Fact `bottom_segment` (app.py lines 250-254). -/
def bottom_segment (rows : List Row) : Option (String × ℚ) :=
  (List.insertionSort revAsc (rev_by_segment rows)).head?

/-- Fact `top_channel` (app.py lines 256-259). -/
def top_channel (rows : List Row) : Option (String × ℚ) :=
  (List.insertionSort revDesc (rev_by_channel rows)).head?

/-- Fact `decline_trend_direction` (app.py lines 261-266): compare last and
first bucket of the decline trend when it has at least two buckets. -/
def decline_trend_direction (rows : List Row) : String :=
  let t := decline_trend rows
  match t.head?, t.getLast? with
  | some a, some b =>
      if t.length ≥ 2 then
        if b.2 > a.2 then "increasing"
        else if b.2 < a.2 then "decreasing"
        else "stable"
      else "stable"
  | _, _ => "stable"

/-- Stand-in for the presentation-layer currency formatting `${x:,.2f}`;
only the fact that a sentence is emitted matters to the core logic. -/
def fmtMoney (q : ℚ) : String := String.append "$" (reprStr q)

/-- Strategic Insights block (app.py lines 268-277): seven sentences, emitted
only when top segment, bottom segment and top channel all exist; otherwise
nothing is printed. -/
def insight_sentences (rows : List Row) : List String :=
  match top_segment rows, bottom_segment rows, top_channel rows with
  | some ts, some bs, some tc =>
      ["• Highest revenue segment: " ++ ts.1 ++ " (" ++ fmtMoney ts.2 ++ ")",
       "• Lowest performing segment: " ++ bs.1 ++ " (" ++ fmtMoney bs.2 ++ ")",
       "• Decline segment revenue trend is " ++ decline_trend_direction rows ++ ".",
       "• Strongest performing channel: " ++ tc.1 ++ " (" ++ fmtMoney tc.2 ++ ")",
       "1. Increase targeted investment in the " ++ ts.1 ++
         " segment to accelerate revenue momentum.",
       "2. Investigate root causes behind the performance of the " ++ bs.1 ++
         " segment and implement corrective engagement strategies.",
       "3. Optimize marketing allocation toward the " ++ tc.1 ++
         " channel while closely monitoring Decline segment behavior."]
  | _, _, _ => []

/-- Everything the dashboard computes from a non-empty filtered view. -/
structure Outputs where
  totalRevenue : ℚ
  avgPurchase : ℚ
  totalTransactions : Nat
  avgSatisfaction : Option ℚ
  revBySegment : List (String × ℚ)
  revByRegion : List (String × ℚ)
  revByChannel : List (String × ℚ)
  revByCategory : List (String × ℚ)
  monthlyTrend : List (String × ℚ)
  declineTrend : List (String × ℚ)
  insights : List String
deriving DecidableEq

/-- All outputs of one successful pass, bundled. -/
def mkOutputs (f : List Row) : Outputs :=
  ⟨total_revenue f, avg_purchase f, total_transactions f, avg_satisfaction f,
   rev_by_segment f, rev_by_region f, rev_by_channel f, rev_by_category f,
   monthly_trend f, decline_trend f, insight_sentences f⟩

/-- The four terminal states of one run of the script: `st.stop()` after a
load error (app.py lines 61-66), after a schema error (lines 72-76), after
the empty-filter warning (lines 135-137), or normal completion. -/
inductive RunResult where
  | loadFailure (msg : String)
  | schemaFailure (missing : List String)
  | emptyWarning
  | success (out : Outputs)
deriving DecidableEq

/-- Steps 5-10 of the script, from the typed table onward (app.py
lines 121-283): apply the filters, stop with a warning if nothing is left,
otherwise compute every output. -/
def dashboard (df : List Row) (s : Selections) : RunResult :=
  let f := filtered_df df s
  if f.isEmpty then RunResult.emptyWarning
  else RunResult.success (mkOutputs f)

/-- The whole run (app.py lines 59-283).  `none` models a failed
`pd.read_excel`; otherwise the input is the raw header list together with
the rows as delivered by the external cell parsers (renaming matched
headers to logical names is the identity in this typed model). -/
def runPipeline (load : Option (List String × List Row)) (s : Selections) : RunResult :=
  match load with
  | none => RunResult.loadFailure "Dataset file not found in repository."
  | some (headers, rawRows) =>
      let cols := headers.map normalizeHeader
      let m := match_required_fields cols
      if m.2.isEmpty then dashboard (dropnaPurchaseamount rawRows) s
      else RunResult.schemaFailure m.2

/-- Modelled from the spec: the Insight Generator's decline-revenue ratio,
`(sum of purchaseamount where label == "decline" case-insensitively) /
total_revenue * 100`, defined as `0` when total revenue is `0`.  This
computation belongs to a later revision of the dashboard script and is not
present in `src/app.py`; the decline selection reuses the script's own
`decline_df` predicate. -/
def declinePct (rows : List Row) : ℚ :=
  if total_revenue rows = 0 then 0
  else sumAmt (decline_df rows) / total_revenue rows * 100

/-- Modelled from the spec: the ratio is an alert condition exactly when it
is strictly greater than 25 percent; not present in `src/app.py`. -/
def isAlertCond (rows : List Row) : Bool := decide (declinePct rows > 25)

/-- String ordering used by Python `sorted` over the option list. -/
def strLE (a b : String) : Prop := a ≤ b

instance : DecidableRel strLE := fun a b => inferInstanceAs (Decidable (a ≤ b))

/-- A raw (pre-coercion) table: its column list and its rows, each row an
association list from column name to optional cell value. -/
structure PyTable where
  cols : List String
  rows : List (List (String × Option String))
deriving DecidableEq

/-- Cell of one row under a column name (absent entry reads as null). -/
def cellOf (row : List (String × Option String)) (field : String) : Option String :=
  (row.lookup field).join

/-- Column access `df[field_name]`: the column as a series, or a `KeyError`
when the column is absent from the table. -/
def seriesGet (t : PyTable) (field : String) : Except String (List (Option String)) :=
  if field ∈ t.cols then Except.ok (t.rows.map (fun r => cellOf r field))
  else Except.error "KeyError"

/-- Option-list construction of `create_filter` (app.py lines 105-109):
`sorted(df[field_name].dropna().astype(str).unique())`. -/
def create_filter_options (t : PyTable) (field : String) : Except String (List String) :=
  (seriesGet t field).map (fun cells =>
    List.insertionSort strLE ((cells.filterMap id).dedup))

/-- Model of `apply_filter` (app.py lines 123-126) acting on the raw table:
`"All"` short-circuits before the column is touched; otherwise
`data[data[field].astype(str).isin(selection)]` raises a `KeyError` if the
column is absent. -/
def apply_filter_raw (t : PyTable) (field : String) (selection : List String) :
    Except String PyTable :=
  if "All" ∈ selection then Except.ok t
  else if field ∈ t.cols then
    Except.ok ⟨t.cols, t.rows.filter (fun r => decide (pyStr (cellOf r field) ∈ selection))⟩
  else Except.error "KeyError"

/-- Row with only a label and an amount. -/
def mkRow (lab : Option String) (amt : Option ℚ) : Row :=
  ⟨lab, none, none, none, none, amt, none, none, none, none, none⟩

/-- Row with a label, a transaction date and an amount. -/
def mkRowD (lab : Option String) (d : Option (Nat × Nat)) (amt : Option ℚ) : Row :=
  ⟨lab, none, none, d, none, amt, none, none, none, none, none⟩

/-- A two-row table with total revenue 1000 and decline revenue 260. -/
def tAlert : List Row :=
  [mkRow (some "decline") (some 260), mkRow (some "growth") (some 740)]

/-- A two-row table with total revenue 1000 and decline revenue 240. -/
def tNormal : List Row :=
  [mkRow (some "decline") (some 240), mkRow (some "growth") (some 760)]

/-- A row whose label is `" Decline "`, with surrounding whitespace. -/
def rowTrimCase : Row := mkRow (some " Decline ") (some 5)

/-- A one-row demonstration table used by witnesses. -/
def demoRows : List Row := [mkRow (some "Growth") (some 5)]

/-- Every-field "All" selection. -/
def sAll : Selections := ⟨["All"], ["All"], ["All"], ["All"], ["All"], ["All"]⟩

/-- A selection excluding every row of `demoRows` on the segment field. -/
def sNone : Selections := ⟨["X"], ["All"], ["All"], ["All"], ["All"], ["All"]⟩

/-- The twelve logical field names as raw headers. -/
def headers12 : List String := logicalFields

/-- The eleven logical fields the spec enumerates as the required set
(without `idx`). -/
def specRequiredFields : List String :=
  ["label", "customerid", "transactionid", "transactiondate", "productcategory",
   "purchaseamount", "customeragegroup", "customergender", "customerregion",
   "customersatisfaction", "retailchannel"]

/-- A raw header list containing exactly the spec's eleven fields. -/
def headers11 : List String := specRequiredFields

/-- Raw headers exercising casing, spacing and underscore variants. -/
def headersVariant : List String :=
  ["IDX", " Label", "Customer ID", "Transaction ID", "Transaction Date",
   "Product Category", "Purchase Amount", "Customer Age Group", "Customer Gender",
   "Customer Region", "Customer Satisfaction", "Retail Channel"]

/-- A row with no transaction date in the decline segment. -/
def rowNoDate : Row := mkRowD (some "decline") none (some 5)

/-- A table whose only row has a null label. -/
def rowsNullLabel : List Row := [mkRow none (some 5)]

/-- A table lacking the filterable `label` column. -/
def tNoLabel : PyTable := ⟨["purchaseamount"], [[("purchaseamount", some "10")]]⟩

/-! ## Helper lemmas -/

theorem sumAmt_nil : sumAmt [] = 0 := rfl

theorem sumAmt_cons (r : Row) (rs : List Row) : sumAmt (r :: rs) = amtOf r + sumAmt rs := by
  simp [sumAmt]

theorem keyRows_cons (key : Row → Option String) (r : Row) (rs : List Row) (k : String) :
    keyRows key (r :: rs) k
      = if key r = some k then r :: keyRows key rs k else keyRows key rs k := by
  simp [keyRows, List.filter_cons]

theorem mem_keyRows {key : Row → Option String} {rows : List Row} {k : String} {r : Row} :
    r ∈ keyRows key rows k ↔ r ∈ rows ∧ key r = some k := by
  simp [keyRows, List.mem_filter]

theorem sum_keyRows (key : Row → Option String) (rows : List Row) (ks : List String)
    (hn : ks.Nodup) (hc : ∀ r ∈ rows, ∀ c, key r = some c → c ∈ ks) :
    (ks.map (fun k => sumAmt (keyRows key rows k))).sum
      = sumAmt (rows.filter (fun r => (key r).isSome)) := by
  induction rows with
  | nil => simp [keyRows, sumAmt]
  | cons r rs ih =>
    have hc2 : ∀ x ∈ rs, ∀ c, key x = some c → c ∈ ks :=
      fun x hx => hc x (List.mem_cons_of_mem _ hx)
    have hmap : (fun k => sumAmt (keyRows key (r :: rs) k))
        = fun k => (if key r = some k then amtOf r else 0) + sumAmt (keyRows key rs k) := by
      funext k
      rw [keyRows_cons]
      split
      · rw [sumAmt_cons]
      · rw [zero_add]
    rw [hmap, List.sum_map_add, ih hc2, List.filter_cons]
    rcases hkr : key r with _ | c
    · simp [hkr]
    · have hck : c ∈ ks := hc r (List.mem_cons_self r rs) c hkr
      have h1 : (ks.map fun k => if some c = some k then amtOf r else 0).sum = amtOf r := by
        rw [← List.sum_toFinset _ hn]
        simp only [Option.some.injEq]
        rw [Finset.sum_ite_eq]
        simp [List.mem_toFinset, hck]
      rw [h1]
      simp [sumAmt_cons]

theorem groupKeys_mem {key : Row → Option String} {rows : List Row} {c : String} :
    c ∈ groupKeys key rows ↔ ∃ r ∈ rows, key r = some c := by
  simp [groupKeys, List.mem_dedup, List.mem_filterMap]

theorem groupSumBy_snd_sum (key : Row → Option String) (rows : List Row) :
    ((groupSumBy key rows).map Prod.snd).sum
      = sumAmt (rows.filter (fun r => (key r).isSome)) := by
  have hperm := (List.perm_insertionSort keyLE
    ((groupKeys key rows).map (fun k => (k, sumAmt (keyRows key rows k))))).map Prod.snd
  rw [groupSumBy, hperm.sum_eq, List.map_map]
  have hcomp : (Prod.snd ∘ fun k => (k, sumAmt (keyRows key rows k)))
      = fun k => sumAmt (keyRows key rows k) := rfl
  rw [hcomp]
  exact sum_keyRows key rows _ (List.nodup_dedup _)
    (fun r hr c hk => groupKeys_mem.mpr ⟨r, hr, hk⟩)

theorem groupSumBy_sorted (key : Row → Option String) (rows : List Row) :
    List.Sorted keyLE (groupSumBy key rows) :=
  List.sorted_insertionSort keyLE _

theorem mem_groupSumBy {key : Row → Option String} {rows : List Row} {p : String × ℚ} :
    p ∈ groupSumBy key rows
      ↔ p.1 ∈ groupKeys key rows ∧ p.2 = sumAmt (keyRows key rows p.1) := by
  rw [groupSumBy, List.mem_insertionSort, List.mem_map]
  constructor
  · rintro ⟨k, hk, rfl⟩
    exact ⟨hk, rfl⟩
  · rintro ⟨h1, h2⟩
    exact ⟨p.1, h1, by rw [← h2]⟩

theorem pair_mem_groupSumBy {key : Row → Option String} {rows : List Row} {k : String}
    (h : k ∈ groupKeys key rows) :
    (k, sumAmt (keyRows key rows k)) ∈ groupSumBy key rows :=
  mem_groupSumBy.mpr ⟨h, rfl⟩

theorem mem_of_mem_apply_filter {data : List Row} {field : Row → Option String}
    {sel : List String} {r : Row} (h : r ∈ apply_filter data field sel) : r ∈ data := by
  rw [apply_filter] at h
  split at h
  · exact h
  · exact List.mem_of_mem_filter h

theorem mem_missing_iff {cols : List String} {f : String} :
    f ∈ (match_required_fields cols).2
      ↔ f ∈ logicalFields ∧ ∀ c ∈ cols, stripUnderscores c ≠ f := by
  simp [match_required_fields, List.mem_filter, Option.isNone_iff_eq_none, matchField,
    List.find?_eq_none]

/-! ## Claims -/

/-- C1: the Insight Generator's decline-revenue ratio equals decline revenue
divided by total revenue times 100, is exactly 0 whenever total revenue is 0
(then classified normal), and is classified as an alert condition exactly
when strictly greater than 25: a table of total 1000 with decline revenue
260 gives ratio 26 and an alert, while decline revenue 240 gives ratio 24
and a normal condition. -/
theorem C1_decline_ratio_spec :
    (∀ rows, total_revenue rows = 0 → declinePct rows = 0 ∧ isAlertCond rows = false)
  ∧ (∀ rows, total_revenue rows ≠ 0 →
      declinePct rows = sumAmt (decline_df rows) / total_revenue rows * 100)
  ∧ (∀ rows, isAlertCond rows = true ↔ declinePct rows > 25)
  ∧ declinePct tAlert = 26 ∧ isAlertCond tAlert = true
  ∧ declinePct tNormal = 24 ∧ isAlertCond tNormal = false := by
  have halert : decline_df tAlert = [mkRow (some "decline") (some 260)] := rfl
  have hnormal : decline_df tNormal = [mkRow (some "decline") (some 240)] := rfl
  have hA : declinePct tAlert = 26 := by
    rw [declinePct, halert]
    norm_num [total_revenue, tAlert, sumAmt_cons, sumAmt_nil, amtOf, mkRow]
  have hN : declinePct tNormal = 24 := by
    rw [declinePct, hnormal]
    norm_num [total_revenue, tNormal, sumAmt_cons, sumAmt_nil, amtOf, mkRow]
  refine ⟨?_, ?_, ?_, hA, ?_, hN, ?_⟩
  · intro rows h
    have h0 : declinePct rows = 0 := by rw [declinePct, if_pos h]
    refine ⟨h0, ?_⟩
    rw [isAlertCond, h0]
    norm_num
  · intro rows h
    rw [declinePct, if_neg h]
  · intro rows
    rw [isAlertCond]
    exact decide_eq_true_iff
  · rw [isAlertCond, hA]
    norm_num
  · rw [isAlertCond, hN]
    norm_num

/-- C1 witness: the ratio of the empty table (total revenue 0) is 0. -/
theorem C1_witness : declinePct [] = 0 := (C1_decline_ratio_spec.1 [] (by decide)).1

/-- C2 counterexample: a row with a null `transactiondate` contributes to a
bucket of both series — the synthetic `"NaT"` bucket — because
`to_period("M").astype(str)` turns `NaT` into the string `"NaT"` rather than
a null that `groupby` would drop. -/
theorem C2_counterexample : (monthly_trend [rowNoDate]).map Prod.fst = ["NaT"]
    ∧ (decline_trend [rowNoDate]).map Prod.fst = ["NaT"] := ⟨rfl, rfl⟩

/-- C2 (amended): the time-bucketed series are computed over ALL rows of the
view: each bucket of `monthly_trend` (resp. `decline_trend`) sums the
`purchaseamount` of exactly the rows whose `year_month` string equals the
bucket key, rows with a parsed date fall into their calendar-month bucket
while rows with a null `transactiondate` fall into the `"NaT"` bucket (they
are not excluded), and the buckets are sorted ascending by the string bucket
key. -/
theorem C2_trend_buckets : ∀ rows : List Row,
    List.Sorted keyLE (monthly_trend rows)
  ∧ List.Sorted keyLE (decline_trend rows)
  ∧ (∀ p ∈ monthly_trend rows, p.2 = sumAmt (keyRows ymKey rows p.1)
      ∧ ∃ r ∈ rows, ymStr r.transactiondate = p.1)
  ∧ (∀ r ∈ rows, r.transactiondate = none →
      ("NaT", sumAmt (keyRows ymKey rows "NaT")) ∈ monthly_trend rows
      ∧ r ∈ keyRows ymKey rows "NaT")
  ∧ (∀ p ∈ decline_trend rows, p.2 = sumAmt (keyRows ymKey (decline_df rows) p.1)
      ∧ ∃ r ∈ decline_df rows, ymStr r.transactiondate = p.1)
  ∧ (∀ r ∈ decline_df rows, r.transactiondate = none →
      ("NaT", sumAmt (keyRows ymKey (decline_df rows) "NaT")) ∈ decline_trend rows
      ∧ r ∈ keyRows ymKey (decline_df rows) "NaT") := by
  intro rows
  refine ⟨groupSumBy_sorted _ _, groupSumBy_sorted _ _, ?_, ?_, ?_, ?_⟩
  · intro p hp
    rw [monthly_trend] at hp
    have h := mem_groupSumBy.mp hp
    refine ⟨h.2, ?_⟩
    rcases groupKeys_mem.mp h.1 with ⟨r, hr, hk⟩
    exact ⟨r, hr, by simpa [ymKey] using hk⟩
  · intro r hr hnone
    have hk : ymKey r = some "NaT" := by simp [ymKey, hnone, ymStr]
    exact ⟨pair_mem_groupSumBy (groupKeys_mem.mpr ⟨r, hr, hk⟩), mem_keyRows.mpr ⟨hr, hk⟩⟩
  · intro p hp
    rw [decline_trend] at hp
    have h := mem_groupSumBy.mp hp
    refine ⟨h.2, ?_⟩
    rcases groupKeys_mem.mp h.1 with ⟨r, hr, hk⟩
    exact ⟨r, hr, by simpa [ymKey] using hk⟩
  · intro r hr hnone
    have hk : ymKey r = some "NaT" := by simp [ymKey, hnone, ymStr]
    exact ⟨pair_mem_groupSumBy (groupKeys_mem.mpr ⟨r, hr, hk⟩), mem_keyRows.mpr ⟨hr, hk⟩⟩

/-- C2 witness: the undated decline row lands in the `"NaT"` bucket. -/
theorem C2_witness : rowNoDate ∈ keyRows ymKey [rowNoDate] "NaT" :=
  ((C2_trend_buckets [rowNoDate]).2.2.2.1 rowNoDate (by decide) rfl).2

/-- C3 counterexample: a header list containing every one of the eleven
spec-required fields verbatim still yields a non-empty missing list, because
this revision of `match_required_fields` additionally requires `idx`. -/
theorem C3_counterexample :
    (specRequiredFields.all (fun f => headers11.any (fun c => canonHeader c == f))) = true
  ∧ (match_required_fields (headers11.map normalizeHeader)).2 = ["idx"] := by
  exact ⟨by decide, by decide⟩

/-- C3 (amended): with the required set taken as the twelve fields of
`logical_fields` (including `idx`), the Schema Matcher is complete and
exact: if every required field has a raw header whose trimmed, lowercased,
space-to-underscore, underscore-stripped form equals it, the missing list is
empty and every field is mapped to some header; and in general a field is
missing exactly when it is required and no raw header canonicalizes to it. -/
theorem C3_schema_matcher : ∀ rawCols : List String,
    ((∀ f ∈ logicalFields, ∃ c ∈ rawCols, canonHeader c = f) →
        (match_required_fields (rawCols.map normalizeHeader)).2 = []
      ∧ (∀ f ∈ logicalFields, ∃ c,
          (f, c) ∈ (match_required_fields (rawCols.map normalizeHeader)).1))
  ∧ (∀ f, f ∈ (match_required_fields (rawCols.map normalizeHeader)).2
      ↔ f ∈ logicalFields ∧ ¬ ∃ c ∈ rawCols, canonHeader c = f) := by
  intro rawCols
  have hchar : ∀ f, f ∈ (match_required_fields (rawCols.map normalizeHeader)).2
      ↔ f ∈ logicalFields ∧ ¬ ∃ c ∈ rawCols, canonHeader c = f := by
    intro f
    rw [mem_missing_iff]
    constructor
    · rintro ⟨h1, h2⟩
      refine ⟨h1, ?_⟩
      rintro ⟨c, hc, hcanon⟩
      exact h2 (normalizeHeader c) (List.mem_map_of_mem _ hc) hcanon
    · rintro ⟨h1, h2⟩
      refine ⟨h1, ?_⟩
      intro c hc heq
      rcases List.mem_map.mp hc with ⟨raw, hraw, rfl⟩
      exact h2 ⟨raw, hraw, heq⟩
  refine ⟨?_, hchar⟩
  intro hall
  constructor
  · rw [List.eq_nil_iff_forall_not_mem]
    intro f hf
    rcases (hchar f).mp hf with ⟨h1, h2⟩
    exact h2 (hall f h1)
  · intro f hf
    rcases hall f hf with ⟨c, hc, hcanon⟩
    have hsome : (matchField (rawCols.map normalizeHeader) f).isSome := by
      rw [matchField, List.find?_isSome]
      refine ⟨normalizeHeader c, List.mem_map_of_mem _ hc, ?_⟩
      rw [canonHeader] at hcanon
      simp [hcanon]
    rcases ho : matchField (rawCols.map normalizeHeader) f with _ | c2
    · rw [ho] at hsome
      cases hsome
    · refine ⟨c2, ?_⟩
      simp only [match_required_fields, List.mem_filterMap]
      exact ⟨f, hf, by simp [ho]⟩

/-- C3 witness: a header list covering all twelve fields under casing,
spacing and underscore variants has an empty missing list. -/
theorem C3_witness : (match_required_fields (headersVariant.map normalizeHeader)).2 = [] :=
  ((C3_schema_matcher headersVariant).1 (by decide)).1

/-- C4 counterexample: the label `" Decline "` equals `"decline"` after
trimming and lowercasing, yet the row is NOT selected into `decline_df`,
because app.py line 194 lowercases without stripping. -/
theorem C4_counterexample : pyLower (pyStrip " Decline ") = "decline"
    ∧ decline_df [rowTrimCase] = [] := ⟨by decide, rfl⟩

/-- C4 (amended): a row belongs to the decline segment if and only if its
label is non-null and lowercasing it (with no whitespace trimming) yields
exactly `"decline"`; a row labelled `" Decline "` is therefore excluded. -/
theorem C4_decline_membership : ∀ (rows : List Row) (r : Row),
    r ∈ decline_df rows ↔ r ∈ rows ∧ ∃ s, r.label = some s ∧ pyLower s = "decline" := by
  intro rows r
  rw [decline_df, List.mem_filter]
  rcases hl : r.label with _ | s
  · simp [isDecline, hl]
  · simp [isDecline, hl]

/-- C5: for each single-key grouped aggregation the group sums add up to the
sum of `purchaseamount` over exactly the rows with a non-null group key, and
every row inside any group has that group's key as its (non-null) value, so
null-key rows belong to no group. -/
theorem C5_group_sums : ∀ rows : List Row,
    ((rev_by_segment rows).map Prod.snd).sum = sumAmt (rows.filter (fun r => r.label.isSome))
  ∧ ((rev_by_region rows).map Prod.snd).sum
      = sumAmt (rows.filter (fun r => r.customerregion.isSome))
  ∧ ((rev_by_channel rows).map Prod.snd).sum
      = sumAmt (rows.filter (fun r => r.retailchannel.isSome))
  ∧ ((rev_by_category rows).map Prod.snd).sum
      = sumAmt (rows.filter (fun r => r.productcategory.isSome))
  ∧ (∀ k r, r ∈ keyRows (fun x => x.label) rows k → r.label = some k)
  ∧ (∀ k r, r ∈ keyRows (fun x => x.customerregion) rows k → r.customerregion = some k)
  ∧ (∀ k r, r ∈ keyRows (fun x => x.retailchannel) rows k → r.retailchannel = some k)
  ∧ (∀ k r, r ∈ keyRows (fun x => x.productcategory) rows k → r.productcategory = some k) := by
  intro rows
  exact ⟨groupSumBy_snd_sum _ rows, groupSumBy_snd_sum _ rows, groupSumBy_snd_sum _ rows,
    groupSumBy_snd_sum _ rows,
    fun k r h => (mem_keyRows.mp h).2, fun k r h => (mem_keyRows.mp h).2,
    fun k r h => (mem_keyRows.mp h).2, fun k r h => (mem_keyRows.mp h).2⟩

/-- C5 witness: the demonstration row found in the "Growth" group indeed
carries the key "Growth". -/
theorem C5_witness : (mkRow (some "Growth") (some 5)).label = some "Growth" :=
  (C5_group_sums demoRows).2.2.2.2.1 "Growth" (mkRow (some "Growth") (some 5)) (by decide)

/-- C6: when every selection contains the `"All"` sentinel the filtered view
is row-for-row the typed table, and on any single field a selection
containing `"All"` (alone or among other values) leaves the data
unchanged. -/
theorem C6_all_filters :
    (∀ (df : List Row) (s : Selections), "All" ∈ s.segment → "All" ∈ s.region →
      "All" ∈ s.category → "All" ∈ s.channel → "All" ∈ s.age → "All" ∈ s.gender →
      filtered_df df s = df)
  ∧ (∀ (data : List Row) (field : Row → Option String) (sel : List String),
      "All" ∈ sel → apply_filter data field sel = data) := by
  constructor
  · intro df s h1 h2 h3 h4 h5 h6
    simp [filtered_df, apply_filter, h1, h2, h3, h4, h5, h6]
  · intro data field sel h
    simp [apply_filter, h]

/-- C6 witness: the all-"All" selection leaves the demonstration table
unchanged. -/
theorem C6_witness : filtered_df demoRows sAll = demoRows :=
  C6_all_filters.1 demoRows sAll (by decide) (by decide) (by decide) (by decide) (by decide)
    (by decide)

/-- C7: whenever the combined filters leave zero rows the run halts with the
empty-result warning, an outcome carrying no outputs and distinct from the
load-failure and schema-failure terminal states (and from success). -/
theorem C7_empty_result :
    (∀ (headers : List String) (rows : List Row) (s : Selections),
      (match_required_fields (headers.map normalizeHeader)).2 = [] →
      filtered_df (dropnaPurchaseamount rows) s = [] →
      runPipeline (some (headers, rows)) s = RunResult.emptyWarning)
  ∧ (∀ msg, RunResult.emptyWarning ≠ RunResult.loadFailure msg)
  ∧ (∀ missing, RunResult.emptyWarning ≠ RunResult.schemaFailure missing)
  ∧ (∀ out, RunResult.emptyWarning ≠ RunResult.success out) := by
  refine ⟨?_, ?_, ?_, ?_⟩
  · intro headers rows s h1 h2
    have e1 : runPipeline (some (headers, rows)) s
        = (if ((match_required_fields (headers.map normalizeHeader)).2).isEmpty
            then dashboard (dropnaPurchaseamount rows) s
            else RunResult.schemaFailure (match_required_fields (headers.map normalizeHeader)).2) :=
      rfl
    rw [e1, h1]
    simp [dashboard, h2]
  · intro msg h
    cases h
  · intro missing h
    cases h
  · intro out h
    cases h

/-- C7 witness: a selection matching no row of the demonstration table makes
the run end in the empty-result warning. -/
theorem C7_witness : runPipeline (some (headers12, demoRows)) sNone = RunResult.emptyWarning :=
  C7_empty_result.1 headers12 demoRows sNone (by decide) (by decide)

/-- C8: after the null-amount drop a row survives exactly when its
`purchaseamount` is non-null, and every row of every filtered view built
from the typed table keeps a non-null `purchaseamount`. -/
theorem C8_amount_invariant :
    (∀ (rows : List Row) (r : Row),
      r ∈ dropnaPurchaseamount rows ↔ r ∈ rows ∧ r.purchaseamount.isSome)
  ∧ (∀ (rows : List Row) (s : Selections) (r : Row),
      r ∈ filtered_df (dropnaPurchaseamount rows) s → r.purchaseamount.isSome) := by
  constructor
  · intro rows r
    simp [dropnaPurchaseamount, List.mem_filter]
  · intro rows s r h
    have h1 : r ∈ dropnaPurchaseamount rows :=
      mem_of_mem_apply_filter (mem_of_mem_apply_filter (mem_of_mem_apply_filter
        (mem_of_mem_apply_filter (mem_of_mem_apply_filter (mem_of_mem_apply_filter h)))))
    rw [dropnaPurchaseamount, List.mem_filter] at h1
    exact h1.2

/-- C8 witness: the demonstration row survives the whole filter chain with a
non-null amount. -/
theorem C8_witness : (mkRow (some "Growth") (some 5)).purchaseamount.isSome = true :=
  C8_amount_invariant.2 demoRows sAll (mkRow (some "Growth") (some 5)) (by decide)

/-- C9 counterexample: on a table lacking the `label` column, building the
label filter's option list raises a `KeyError` instead of acting as a no-op,
and so does applying a concrete selection. -/
theorem C9_counterexample : create_filter_options tNoLabel "label" = Except.error "KeyError"
    ∧ apply_filter_raw tNoLabel "label" ["A"] = Except.error "KeyError" := ⟨rfl, rfl⟩

/-- C9 (amended): when a filterable field is absent from the table, building
that filter's option list raises a `KeyError` (it is not a no-op), and
applying a selection to it also raises a `KeyError` unless the selection
contains `"All"`, in which case the `"All"` short-circuit returns the data
unchanged without touching the column. -/
theorem C9_missing_column : ∀ (t : PyTable) (field : String), field ∉ t.cols →
    create_filter_options t field = Except.error "KeyError"
  ∧ (∀ sel, "All" ∈ sel → apply_filter_raw t field sel = Except.ok t)
  ∧ (∀ sel, "All" ∉ sel → apply_filter_raw t field sel = Except.error "KeyError") := by
  intro t field h
  refine ⟨?_, ?_, ?_⟩
  · simp [create_filter_options, seriesGet, h, Except.map]
  · intro sel hs
    simp [apply_filter_raw, hs]
  · intro sel hs
    simp [apply_filter_raw, hs, h]

/-- C9 witness: building the label filter on the label-less table errors. -/
theorem C9_witness : create_filter_options tNoLabel "label" = Except.error "KeyError" :=
  (C9_missing_column tNoLabel "label" (by decide)).1

/-- C10: when the label-grouped or the channel-grouped aggregate is empty the
insight stage emits no sentences at all (neither facts nor recommended
actions); sentences are emitted exactly when top segment, bottom segment and
top channel all exist; and a non-empty filtered view always completes the
run successfully, whatever the insight block emitted. -/
theorem C10_insight_guards :
    (∀ rows : List Row, rev_by_segment rows = [] ∨ rev_by_channel rows = [] →
      insight_sentences rows = [])
  ∧ (∀ rows : List Row, insight_sentences rows ≠ [] ↔
      ((top_segment rows).isSome ∧ (bottom_segment rows).isSome ∧ (top_channel rows).isSome))
  ∧ (∀ (df : List Row) (s : Selections), filtered_df df s ≠ [] →
      dashboard df s = RunResult.success (mkOutputs (filtered_df df s))) := by
  refine ⟨?_, ?_, ?_⟩
  · intro rows h
    rcases h with h | h
    · have h0 : top_segment rows = none := by rw [top_segment, h]; rfl
      simp [insight_sentences, h0]
    · have h0 : top_channel rows = none := by rw [top_channel, h]; rfl
      rcases h1 : top_segment rows with _ | ts
      · simp [insight_sentences, h1]
      · rcases h2 : bottom_segment rows with _ | bs
        · simp [insight_sentences, h1, h2]
        · simp [insight_sentences, h1, h2, h0]
  · intro rows
    constructor
    · intro hne
      rcases h1 : top_segment rows with _ | ts
      · exact absurd (by simp [insight_sentences, h1]) hne
      · rcases h2 : bottom_segment rows with _ | bs
        · exact absurd (by simp [insight_sentences, h1, h2]) hne
        · rcases h3 : top_channel rows with _ | tc
          · exact absurd (by simp [insight_sentences, h1, h2, h3]) hne
          · simp
    · rintro ⟨hs1, hs2, hs3⟩
      rcases h1 : top_segment rows with _ | ts
      · rw [h1] at hs1; cases hs1
      · rcases h2 : bottom_segment rows with _ | bs
        · rw [h2] at hs2; cases hs2
        · rcases h3 : top_channel rows with _ | tc
          · rw [h3] at hs3; cases hs3
          · simp [insight_sentences, h1, h2, h3]
  · intro df s h
    have he : (filtered_df df s).isEmpty = false := by
      rcases hx : (filtered_df df s).isEmpty
      · rfl
      · exact absurd (List.isEmpty_iff.mp hx) h
    simp [dashboard, he]

/-- C10 witness: a view whose only row has a null label produces no insight
sentences. -/
theorem C10_witness : insight_sentences rowsNullLabel = [] :=
  C10_insight_guards.1 rowsNullLabel (Or.inl rfl)
